import Mathlib

/-!
Verification of the core of the smart-attendance system: the Firestore
service layer (session lifecycle, attendance marking, descriptor storage)
and the face-recognition matcher.

The embedding mirrors the TypeScript service layer. Firestore is modelled
as an explicit state (`DB`) holding the four relevant collections; every
service function becomes a pure function from the state (plus the values
the runtime supplies: the current clock reading `Date.now()`, the fresh
document ids Firestore generates, the random join code) to a result and a
new state. Functions whose TypeScript body can throw return `Except`.

Numeric feature vectors are modelled over `ℚ`. The matcher's confidence
is `max 0 (1 - Real.sqrt d2)` where `d2` is the squared Euclidean
distance; the embedding carries `d2 : ℚ` instead of the confidence and
performs every comparison on squared distances, reversed. The bridge
theorems `conf_gt_threshold_iff` and `conf_lt_conf_iff` prove that this
transformation is faithful: for the thresholds 0.4 and 0.8 used by the
code, `confidence > 0.4 ↔ d2 < 9/25` and `confidence > 0.8 ↔ d2 < 1/25`,
and comparing two confidences both above the 0.4 threshold is the same
as comparing their squared distances in the opposite direction.
-/

namespace SmartAttendance

/-- Session document, as in the store's Session type: id, teacherId,
sectionId, subjectId, isActive, mode, startTime, endTime, expiresAt,
code, createdAt. Times are epoch milliseconds, modelled as Nat. -/
structure Session where
  id : String
  teacherId : String
  sectionId : String
  subjectId : String
  isActive : Bool
  mode : String
  startTime : Nat
  endTime : Nat
  expiresAt : Nat
  code : String
  createdAt : Nat
deriving Repr, DecidableEq

/-- Student document restricted to the fields the verified operations
read or write: id, rollNumber, sectionId, faceRegistered, and the stored
face-descriptor set (the Firestore desc_i object encoding is modelled
directly as the list of descriptor vectors it holds) together with the
faceDescriptorCount field maintained by saveFaceDescriptors. -/
structure Student where
  id : String
  rollNumber : String
  sectionId : String
  faceRegistered : Bool
  faceDescriptors : List (List ℚ)
  faceDescriptorCount : Nat
deriving Repr, DecidableEq

/-- AttendanceRecord document: id, studentId, subjectId, teacherId,
sectionId, timestamp, period, topic, present, createdAt. -/
structure AttendanceRecord where
  id : String
  studentId : String
  subjectId : String
  teacherId : String
  sectionId : String
  timestamp : Nat
  period : Nat
  topic : Option String
  present : Bool
  createdAt : Nat
deriving Repr, DecidableEq

/-- AuditLog document written by addAttendanceToFirebase: id, actorId,
actorRole, action, target, timestamp, the details payload (subjectId,
sectionId, period, present, flattened), createdAt. -/
structure AuditLog where
  id : String
  actorId : String
  actorRole : String
  action : String
  target : String
  timestamp : Nat
  detailsSubjectId : String
  detailsSectionId : String
  detailsPeriod : Nat
  detailsPresent : Bool
  createdAt : Nat
deriving Repr, DecidableEq

/-- The durable Firestore state seen by the verified operations: the
STUDENTS, SESSIONS, ATTENDANCE_LOGS and AUDITS collections. -/
structure DB where
  students : List Student
  sessions : List Session
  attendanceLogs : List AttendanceRecord
  audits : List AuditLog
deriving Repr, DecidableEq

/-- The errors thrown by the embedded operations. Each constructor stands
for one concrete thrown Error message:
sessionConflict for "A session is already active for this class section.",
sessionNotFound for "Session not found",
sessionInactive for "Session is inactive",
studentNotFound for "Student not found",
documentNotFound for the rejection updateDoc raises on a missing doc. -/
inductive FbError where
  | sessionConflict
  | sessionNotFound
  | sessionInactive
  | studentNotFound
  | documentNotFound
deriving Repr, DecidableEq

deriving instance DecidableEq for Except

/-- The Firestore query used by both createAttendanceSession and
getActiveSessionForSection: where sectionId == given and isActive == true. -/
def sessionQueryActive (sectionId : String) (s : Session) : Bool :=
  s.sectionId == sectionId && s.isActive

/-- Step 1 of createAttendanceSession, an atomic read: the precondition
query "no active session exists for this section" (existing.empty). -/
def createCheckPasses (db : DB) (sectionId : String) : Bool :=
  (db.sessions.filter (sessionQueryActive sectionId)).isEmpty

/-- Step 2 of createAttendanceSession, an atomic write: setDoc of the new
session document. Firestore links the two steps by no transaction. -/
def sessionInsert (db : DB) (s : Session) : DB :=
  { db with sessions := db.sessions ++ [s] }

/-- createAttendanceSession(teacherId, sectionId, subjectId, mode,
durationMinutes): checks that no active session exists for the section
(throwing the conflict error otherwise), then creates a session with
isActive = true, startTime = now, endTime = expiresAt = now +
durationMinutes*60*1000. The fresh document id and the random 4-digit
join code are inputs supplied by the runtime. -/
def createAttendanceSession (db : DB) (teacherId sectionId subjectId mode : String)
    (durationMinutes now : Nat) (newId code : String) : Except FbError (Session × DB) :=
  if !(createCheckPasses db sectionId) then .error .sessionConflict
  else
    let startTime := now
    let endTime := startTime + durationMinutes * 60 * 1000
    let s : Session :=
      { id := newId, teacherId := teacherId, sectionId := sectionId,
        subjectId := subjectId, isActive := true, mode := mode,
        startTime := startTime, endTime := endTime, expiresAt := endTime,
        code := code, createdAt := now }
    .ok (s, sessionInsert db s)

/-- The update endAttendanceSession applies to the session document with
the given id: isActive := false, endTime := now (the actual end time). -/
def endUpdate (sessionId : String) (now : Nat) (s : Session) : Session :=
  if s.id == sessionId then { s with isActive := false, endTime := now } else s

/-- endAttendanceSession(sessionId): updateDoc setting isActive false and
endTime to the actual end time. Every call site passes an id read from a
live snapshot, so the missing-document rejection of updateDoc is not
modelled here. -/
def endAttendanceSession (db : DB) (sessionId : String) (now : Nat) : DB :=
  { db with sessions := db.sessions.map (endUpdate sessionId now) }

/-- getActiveSessionForSection(sectionId): queries the active session for
the section; returns null when none exists; when the first match has
expiresAt < now it lazily auto-closes it via endAttendanceSession and
returns null; otherwise returns the session. The pair carries the
returned value and the state after the call. -/
def getActiveSessionForSection (db : DB) (sectionId : String) (now : Nat) :
    Option Session × DB :=
  match db.sessions.filter (sessionQueryActive sectionId) with
  | [] => (none, db)
  | s :: _ =>
    if s.expiresAt < now then (none, endAttendanceSession db s.id now)
    else (some s, db)

/-- findStudentByRollNumber: first document of the query
where rollNumber == given, or null. -/
def findStudentByRollNumber (db : DB) (rollNumber : String) : Option Student :=
  db.students.find? (fun st => st.rollNumber == rollNumber)

/-- getDoc on the SESSIONS collection by document id. -/
def findSessionById (db : DB) (sessionId : String) : Option Session :=
  db.sessions.find? (fun s => s.id == sessionId)

/-- The existing-record query of markSessionAttendance: where
studentId == student.id, sectionId == session.sectionId,
subjectId == session.subjectId, timestamp > session.startTime. Note that
the query does not mention the session id; the strict time window after
startTime is the session scoping. -/
def attendanceWindowQuery (session : Session) (studentId : String)
    (r : AttendanceRecord) : Bool :=
  r.studentId == studentId && r.sectionId == session.sectionId &&
    r.subjectId == session.subjectId && decide (session.startTime < r.timestamp)

/-- markSessionAttendance(sessionId, rollNumber): loads the session
(throwing when absent), throws when its isActive flag is false, resolves
the student by roll number (throwing when absent), returns true without
writing when the existing-record query matches, and otherwise persists a
new record with present = true, timestamp = now, period = 0. The fresh
record id is an input supplied by the runtime. -/
def markSessionAttendance (db : DB) (sessionId rollNumber : String)
    (now : Nat) (newId : String) : Except FbError (Bool × DB) :=
  match findSessionById db sessionId with
  | none => .error .sessionNotFound
  | some session =>
    if !session.isActive then .error .sessionInactive
    else
      match findStudentByRollNumber db rollNumber with
      | none => .error .studentNotFound
      | some student =>
        let existing := db.attendanceLogs.filter (attendanceWindowQuery session student.id)
        if !existing.isEmpty then .ok (true, db)
        else
          let record : AttendanceRecord :=
            { id := newId, studentId := student.id, subjectId := session.subjectId,
              teacherId := session.teacherId, sectionId := session.sectionId,
              timestamp := now, period := 0, topic := none, present := true,
              createdAt := now }
          .ok (true, { db with attendanceLogs := db.attendanceLogs ++ [record] })

/-- addAttendanceToFirebase: persists the attendance record (timestamp
defaults to now when the caller passes none), then attempts the audit-log
write inside its own try/catch; a failing audit write is logged and
swallowed, so the function returns the created record either way. The
flag auditWriteSucceeds models whether the inner setDoc succeeds. -/
def addAttendanceToFirebase (db : DB)
    (studentId subjectId teacherId sectionId : String)
    (timestampArg : Option Nat) (period : Nat) (topic : Option String)
    (present : Bool) (now : Nat) (newId auditId : String)
    (auditWriteSucceeds : Bool) : AttendanceRecord × DB :=
  let attendance : AttendanceRecord :=
    { id := newId, studentId := studentId, subjectId := subjectId,
      teacherId := teacherId, sectionId := sectionId,
      timestamp := timestampArg.getD now, period := period, topic := topic,
      present := present, createdAt := now }
  let db1 := { db with attendanceLogs := db.attendanceLogs ++ [attendance] }
  if auditWriteSucceeds then
    let audit : AuditLog :=
      { id := auditId, actorId := teacherId, actorRole := "teacher",
        action := "add_attendance", target := studentId, timestamp := now,
        detailsSubjectId := subjectId, detailsSectionId := sectionId,
        detailsPeriod := period, detailsPresent := present, createdAt := now }
    (attendance, { db1 with audits := db1.audits ++ [audit] })
  else (attendance, db1)

/-- The update saveFaceDescriptors applies to the student document:
faceDescriptors := the given set (wholesale overwrite),
faceDescriptorCount := its length, faceRegistered := true. -/
def saveUpdate (studentId : String) (descriptors : List (List ℚ))
    (st : Student) : Student :=
  if st.id == studentId then
    { st with faceDescriptors := descriptors,
              faceDescriptorCount := descriptors.length,
              faceRegistered := true }
  else st

/-- saveFaceDescriptors(studentId, descriptors): updateDoc on the student
document, storing the descriptor set, its count, and faceRegistered =
true, unconditionally on the shape of the descriptor list. updateDoc's
rejection on a missing document is the only failure modelled. -/
def saveFaceDescriptors (db : DB) (studentId : String)
    (descriptors : List (List ℚ)) : Except FbError DB :=
  if db.students.any (fun st => st.id == studentId) then
    .ok { db with students := db.students.map (saveUpdate studentId descriptors) }
  else .error .documentNotFound

/-- Number of sessions the active-session query returns for a section. -/
def activeCount (sessions : List Session) (sectionId : String) : Nat :=
  (sessions.filter (sessionQueryActive sectionId)).length

/-- The exclusivity invariant from the data model: at most one session
with isActive = true exists per section. -/
def SessionInvariant (db : DB) : Prop :=
  ∀ g : String, activeCount db.sessions g ≤ 1

/-- Squared Euclidean distance between two vectors, the square of the
distance faceapi.euclideanDistance computes. -/
def dist2 (xs ys : List ℚ) : ℚ :=
  (List.zipWith (fun a b => (a - b) ^ 2) xs ys).sum

/-- A face box, passed through from detection to recognition result. -/
structure Box where
  x : ℚ
  y : ℚ
  width : ℚ
  height : ℚ
deriving Repr, DecidableEq

/-- One detected face: its computed descriptor and its box. -/
structure Detection where
  descriptor : List ℚ
  box : Box
deriving Repr, DecidableEq

/-- The running best match of the recognition loop. The code stores the
confidence max 0 (1 - Real.sqrt d2); the embedding stores d2, the squared
distance that produced it (an invariant of the loop is d2 < 9/25, that is
confidence > 0.4). -/
structure BestMatch where
  studentId : String
  d2 : ℚ
deriving Repr, DecidableEq

/-- One entry of the list recognizeFaces returns. bestD2 = none encodes
the literal confidence 0 the code pushes for an unrecognized face;
bestD2 = some a encodes confidence 1 - Real.sqrt a. -/
structure Recognition where
  studentId : String
  bestD2 : Option ℚ
  box : Box
  isRecognized : Bool
deriving Repr, DecidableEq

/-- The guard of the recognition loop:
confidence > 0.4 && (!bestMatch || confidence > bestMatch.confidence),
carried on squared distances (confidence > 0.4 ↔ d2 < 9/25, and for two
candidates above that threshold the confidence order is the reversed d2
order; see conf_gt_threshold_iff and conf_lt_conf_iff). -/
def improves (d2 : ℚ) (best : Option BestMatch) : Bool :=
  decide (d2 < 9/25) &&
    (match best with
     | none => true
     | some b => decide (d2 < b.d2))

/-- The inner loop of recognizeFaces over one student's descriptors:
whenever the guard passes, the best match becomes this student at this
squared distance, and the loop breaks early when confidence > 0.8
(d2 < 1/25). -/
def scanDescriptors (studentId : String) (probe : List ℚ) :
    List (List ℚ) → Option BestMatch → Option BestMatch
  | [], best => best
  | d :: rest, best =>
    let d2 := dist2 probe d
    if improves d2 best then
      if d2 < 1/25 then some { studentId := studentId, d2 := d2 }
      else scanDescriptors studentId probe rest (some { studentId := studentId, d2 := d2 })
    else scanDescriptors studentId probe rest best

/-- The outer loop of recognizeFaces over the registered students'
descriptor map (modelled as an association list in iteration order); it
breaks early when the best match after a student has confidence > 0.8
(d2 < 1/25). -/
def scanCandidates (probe : List ℚ) :
    List (String × List (List ℚ)) → Option BestMatch → Option BestMatch
  | [], best => best
  | (sid, descs) :: rest, best =>
    match scanDescriptors sid probe descs best with
    | some b => if b.d2 < 1/25 then some b else scanCandidates probe rest (some b)
    | none => scanCandidates probe rest none

/-- The entry recognizeFaces pushes for a detected but unrecognized face:
studentId "unknown", confidence 0, the detection's box, isRecognized
false. -/
def unknownEntry (det : Detection) : Recognition :=
  { studentId := "unknown", bestD2 := none, box := det.box, isRecognized := false }

/-- The per-detection body of recognizeFaces: run the matching loops; on
a best match push it as recognized, otherwise push the unknown entry. -/
def recognizeOne (cands : List (String × List (List ℚ))) (det : Detection) :
    Recognition :=
  match scanCandidates det.descriptor cands none with
  | some b =>
    { studentId := b.studentId, bestD2 := some b.d2, box := det.box,
      isRecognized := true }
  | none => unknownEntry det

/-- recognizeFaces: returns [] when no face was detected; when the
registered-student map is empty (even after the auto-reload attempt,
whose outcome the cands parameter already reflects) returns one unknown
entry per detection; otherwise runs the matching loop on each detection.
The TypeScript body is wrapped in a try/catch that turns any internal
failure into [], so the embedded function is total. -/
def recognizeFaces (dets : List Detection)
    (cands : List (String × List (List ℚ))) : List Recognition :=
  match dets with
  | [] => []
  | d :: rest =>
    if cands.isEmpty then (d :: rest).map unknownEntry
    else (d :: rest).map (recognizeOne cands)

/-- The entry recognizeFaces produces for one detection, covering both
the empty-candidates branch and the matching loop. -/
def entryFor (cands : List (String × List (List ℚ))) (det : Detection) :
    Recognition :=
  if cands.isEmpty then unknownEntry det else recognizeOne cands det

/-- Holds when every registered descriptor is at squared distance at
least 9/25 from the probe, that is when the maximum confidence over the
candidate set is at most the threshold 0.4. -/
def allBelowThreshold (probe : List ℚ)
    (cands : List (String × List (List ℚ))) : Prop :=
  ∀ c ∈ cands, ∀ d ∈ c.2, 9/25 ≤ dist2 probe d

/- Concrete fixtures used by witnesses and counterexamples. -/

/-- The empty Firestore state. -/
def dbEmpty : DB := { students := [], sessions := [], attendanceLogs := [], audits := [] }

/-- An active session for section G starting at 5, expiring at 100. -/
def sessionG : Session :=
  { id := "s1", teacherId := "t1", sectionId := "G", subjectId := "m",
    isActive := true, mode := "demo", startTime := 5, endTime := 100,
    expiresAt := 100, code := "1111", createdAt := 0 }

/-- A session for section G whose expiresAt (10) has passed but whose
stored isActive flag is still true: expired but never closed. -/
def sessionExpired : Session :=
  { id := "s1", teacherId := "t1", sectionId := "G", subjectId := "m",
    isActive := true, mode := "demo", startTime := 0, endTime := 10,
    expiresAt := 10, code := "2222", createdAt := 0 }

/-- A session already transitioned to Ended (isActive = false). -/
def sessionEnded : Session :=
  { id := "s1", teacherId := "t1", sectionId := "G", subjectId := "m",
    isActive := false, mode := "demo", startTime := 0, endTime := 7,
    expiresAt := 10, code := "3333", createdAt := 0 }

/-- A registered student of section G with one stored descriptor. -/
def studentR1 : Student :=
  { id := "stu", rollNumber := "r1", sectionId := "G", faceRegistered := true,
    faceDescriptors := [[1]], faceDescriptorCount := 1 }

/-- State with one registered student and one live session for G. -/
def dbMark : DB :=
  { students := [studentR1], sessions := [sessionG], attendanceLogs := [], audits := [] }

/-- The record the first mark of the C3 counterexample persists: it is
written at now = 5, exactly the session's startTime. -/
def recAt5 : AttendanceRecord :=
  { id := "recA", studentId := "stu", subjectId := "m", teacherId := "t1",
    sectionId := "G", timestamp := 5, period := 0, topic := none,
    present := true, createdAt := 5 }

/-- The record the second mark of the C3 counterexample persists. -/
def recAt6 : AttendanceRecord :=
  { id := "recB", studentId := "stu", subjectId := "m", teacherId := "t1",
    sectionId := "G", timestamp := 6, period := 0, topic := none,
    present := true, createdAt := 6 }

/-- dbMark after the boundary-time mark. -/
def dbMarkAfter5 : DB := { dbMark with attendanceLogs := [recAt5] }

/-- dbMark after both marks of the C3 counterexample. -/
def dbMarkAfter56 : DB := { dbMark with attendanceLogs := [recAt5, recAt6] }

/-- dbMark holding one record written strictly after startTime, the
setting in which marking is idempotent. -/
def dbMarkIdem : DB := { dbMark with attendanceLogs := [recAt6] }

/-- State with a registered student and an expired-but-still-active
session for G. -/
def dbExpired : DB :=
  { students := [studentR1], sessions := [sessionExpired], attendanceLogs := [], audits := [] }

/-- The record markSessionAttendance persists at now = 11 against the
expired-but-still-active session. -/
def recAt11 : AttendanceRecord :=
  { id := "recC4", studentId := "stu", subjectId := "m", teacherId := "t1",
    sectionId := "G", timestamp := 11, period := 0, topic := none,
    present := true, createdAt := 11 }

/-- dbExpired after the post-expiry mark succeeded. -/
def dbExpiredAfter : DB := { dbExpired with attendanceLogs := [recAt11] }

/-- State with a registered student and an ended session for G. -/
def dbEnded : DB :=
  { students := [studentR1], sessions := [sessionEnded], attendanceLogs := [], audits := [] }

/-- State whose only collection content is one registered student. -/
def dbStudentOnly : DB :=
  { students := [studentR1], sessions := [], attendanceLogs := [], audits := [] }

/-- dbStudentOnly after saveFaceDescriptors with the empty list: the
stored descriptor set is wiped and faceRegistered is still true. -/
def dbStudentWiped : DB :=
  { students := [{ studentR1 with faceDescriptors := [], faceDescriptorCount := 0 }],
    sessions := [], attendanceLogs := [], audits := [] }

/-- The session the first of two racing createAttendanceSession calls
writes (both calls read the empty state first). -/
def sessA : Session :=
  { id := "a", teacherId := "t1", sectionId := "G", subjectId := "m",
    isActive := true, mode := "demo", startTime := 0, endTime := 600000,
    expiresAt := 600000, code := "1111", createdAt := 0 }

/-- The session the second racing createAttendanceSession call writes. -/
def sessB : Session :=
  { id := "b", teacherId := "t2", sectionId := "G", subjectId := "m",
    isActive := true, mode := "demo", startTime := 0, endTime := 600000,
    expiresAt := 600000, code := "2222", createdAt := 0 }

/-- A probe detection with descriptor [0]. -/
def detZero : Detection :=
  { descriptor := [0], box := { x := 0, y := 0, width := 1, height := 1 } }

/-- A candidate set whose single descriptor sits at Euclidean distance
exactly 3/5 from the probe [0], so its confidence is exactly the
threshold 0.4. -/
def candsTau : List (String × List (List ℚ)) := [("S1", [[3/5]])]

/-- A candidate set whose single descriptor sits at squared distance 4
from the probe [0] (confidence 0, far below the threshold). -/
def candsFar : List (String × List (List ℚ)) := [("S1", [[2]])]

/- Helper lemmas shared by the claim theorems. -/

theorem activeCount_nil (g : String) : activeCount [] g = 0 := rfl

theorem activeCount_cons (x : Session) (xs : List Session) (g : String) :
    activeCount (x :: xs) g =
      activeCount xs g + (if sessionQueryActive g x then 1 else 0) := by
  simp only [activeCount, List.filter_cons]
  split
  · simp
  · simp

theorem activeCount_append_single (l : List Session) (s : Session) (g : String) :
    activeCount (l ++ [s]) g =
      activeCount l g + (if sessionQueryActive g s then 1 else 0) := by
  simp only [activeCount, List.filter_append, List.length_append, List.filter_cons,
    List.filter_nil]
  split
  · simp
  · simp

theorem activeCount_endUpdate_le (l : List Session) (sid : String) (now : Nat)
    (g : String) :
    activeCount (l.map (endUpdate sid now)) g ≤ activeCount l g := by
  induction l with
  | nil => simp [activeCount]
  | cons x xs ih =>
    rw [List.map_cons, activeCount_cons, activeCount_cons]
    refine Nat.add_le_add ih ?_
    by_cases h : x.id == sid
    · simp [endUpdate, h, sessionQueryActive]
    · simp [endUpdate, h]

theorem endAttendanceSession_invariant (db : DB) (hInv : SessionInvariant db)
    (sid : String) (now : Nat) :
    SessionInvariant (endAttendanceSession db sid now) := fun g =>
  le_trans (activeCount_endUpdate_le db.sessions sid now g) (hInv g)

theorem dist2_nonneg (xs ys : List ℚ) : 0 ≤ dist2 xs ys := by
  induction xs generalizing ys with
  | nil => simp [dist2]
  | cons x xs ih =>
    cases ys with
    | nil => simp [dist2]
    | cons y ys =>
      have h1 : 0 ≤ (x - y) ^ 2 := sq_nonneg _
      have h2 := ih ys
      simp only [dist2, List.zipWith_cons_cons, List.sum_cons] at h2 ⊢
      linarith

theorem scanDescriptors_ne_none (sid : String) (probe : List ℚ)
    (descs : List (List ℚ)) (b : BestMatch) :
    scanDescriptors sid probe descs (some b) ≠ none := by
  induction descs generalizing b with
  | nil => simp [scanDescriptors]
  | cons d rest ih =>
    simp only [scanDescriptors]
    split
    · split
      · simp
      · exact ih _
    · exact ih b

theorem scanDescriptors_none_iff (sid : String) (probe : List ℚ)
    (descs : List (List ℚ)) :
    scanDescriptors sid probe descs none = none ↔
      ∀ d ∈ descs, ¬ dist2 probe d < 9/25 := by
  induction descs with
  | nil => simp [scanDescriptors]
  | cons d rest ih =>
    simp only [scanDescriptors]
    by_cases h : improves (dist2 probe d) none = true
    · rw [if_pos h]
      have hd2 : dist2 probe d < 9/25 := by
        simpa [improves] using h
      constructor
      · intro hcontra
        exfalso
        split at hcontra
        · simp at hcontra
        · exact scanDescriptors_ne_none _ _ _ _ hcontra
      · intro hall
        exact absurd hd2 (hall d (by simp))
    · rw [if_neg h]
      have hd2 : ¬ dist2 probe d < 9/25 := by
        simpa [improves] using h
      rw [ih, List.forall_mem_cons]
      exact (and_iff_right hd2).symm

theorem scanCandidates_ne_none (probe : List ℚ)
    (cands : List (String × List (List ℚ))) (b : BestMatch) :
    scanCandidates probe cands (some b) ≠ none := by
  induction cands generalizing b with
  | nil => simp [scanCandidates]
  | cons c rest ih =>
    obtain ⟨sid, descs⟩ := c
    cases hsd : scanDescriptors sid probe descs (some b) with
    | none => exact absurd hsd (scanDescriptors_ne_none _ _ _ _)
    | some b' =>
      simp only [scanCandidates, hsd]
      split
      · simp
      · exact ih b'

theorem scanCandidates_none_iff (probe : List ℚ)
    (cands : List (String × List (List ℚ))) :
    scanCandidates probe cands none = none ↔
      ∀ c ∈ cands, ∀ d ∈ c.2, ¬ dist2 probe d < 9/25 := by
  induction cands with
  | nil => simp [scanCandidates]
  | cons c rest ih =>
    obtain ⟨sid, descs⟩ := c
    cases hsd : scanDescriptors sid probe descs none with
    | none =>
      have hall := (scanDescriptors_none_iff sid probe descs).mp hsd
      simp only [scanCandidates, hsd]
      rw [ih, List.forall_mem_cons]
      exact (and_iff_right hall).symm
    | some b =>
      simp only [scanCandidates, hsd]
      constructor
      · intro hcontra
        exfalso
        split at hcontra
        · simp at hcontra
        · exact scanCandidates_ne_none _ _ _ hcontra
      · intro hall
        exfalso
        have hnone := (scanDescriptors_none_iff sid probe descs).mpr
          (fun d hd => hall (sid, descs) (by simp) d hd)
        rw [hnone] at hsd
        exact Option.noConfusion hsd

theorem recognizeFaces_eq_map (dets : List Detection)
    (cands : List (String × List (List ℚ))) :
    recognizeFaces dets cands = dets.map (entryFor cands) := by
  have hfun : entryFor cands =
      if cands.isEmpty then unknownEntry else recognizeOne cands := by
    funext det
    simp only [entryFor]
    split
    · rfl
    · rfl
  cases dets with
  | nil => simp [recognizeFaces]
  | cons d rest =>
    by_cases h : cands.isEmpty
    · simp only [recognizeFaces, if_pos h, hfun]
    · simp only [recognizeFaces, if_neg h, hfun]

theorem conf_gt_threshold_iff (a t : ℝ) (_ha : 0 ≤ a) (ht0 : 0 ≤ t) (ht1 : t < 1) :
    t < max 0 (1 - Real.sqrt a) ↔ a < (1 - t) ^ 2 := by
  rw [lt_max_iff]
  constructor
  · rintro (h | h)
    · linarith
    · have h2 : Real.sqrt a < 1 - t := by linarith
      exact (Real.sqrt_lt' (by linarith)).mp h2
  · intro h
    right
    have h2 : Real.sqrt a < 1 - t := (Real.sqrt_lt' (by linarith)).mpr h
    linarith

theorem conf_le_threshold_iff (a : ℝ) (ha : 0 ≤ a) :
    max 0 (1 - Real.sqrt a) ≤ 2/5 ↔ 9/25 ≤ a := by
  have h := conf_gt_threshold_iff a (2/5) ha (by norm_num) (by norm_num)
  rw [show ((1:ℝ) - 2/5) ^ 2 = 9/25 by norm_num] at h
  simp only [← not_lt]
  exact not_congr h

theorem createCheckPasses_activeCount (db : DB) (sectionId : String)
    (h : createCheckPasses db sectionId = true) :
    activeCount db.sessions sectionId = 0 := by
  unfold createCheckPasses at h
  unfold activeCount
  rw [List.isEmpty_iff] at h
  rw [h]
  rfl

theorem conf_lt_conf_iff (a b : ℝ) (ha : 0 ≤ a) (_hb : 0 ≤ b) (ha1 : a < 1) :
    max 0 (1 - Real.sqrt b) < max 0 (1 - Real.sqrt a) ↔ a < b := by
  have hsa : Real.sqrt a < 1 := by
    have := (Real.sqrt_lt' (x := a) one_pos).mpr (by simpa using ha1)
    simpa using this
  rw [max_eq_right (by linarith : (0:ℝ) ≤ 1 - Real.sqrt a)]
  by_cases hb1 : b < 1
  · have hsb : Real.sqrt b < 1 := by
      have := (Real.sqrt_lt' (x := b) one_pos).mpr (by simpa using hb1)
      simpa using this
    rw [max_eq_right (by linarith : (0:ℝ) ≤ 1 - Real.sqrt b)]
    constructor
    · intro h
      have h2 : Real.sqrt a < Real.sqrt b := by linarith
      exact (Real.sqrt_lt_sqrt_iff ha).mp h2
    · intro h
      have h2 := Real.sqrt_lt_sqrt ha h
      linarith
  · push_neg at hb1
    have hsb : 1 ≤ Real.sqrt b := by
      have := (Real.le_sqrt' (y := b) one_pos).mpr (by simpa using hb1)
      simpa using this
    rw [max_eq_left (by linarith : 1 - Real.sqrt b ≤ 0)]
    constructor
    · intro _
      linarith
    · intro _
      linarith

theorem createSession_invariant_aux (db : DB) (hInv : SessionInvariant db)
    (sectionId : String) (S : Session) (hSsec : S.sectionId = sectionId)
    (hchk : createCheckPasses db sectionId = true) :
    SessionInvariant (sessionInsert db S) := by
  intro g'
  show activeCount (db.sessions ++ [S]) g' ≤ 1
  rw [activeCount_append_single]
  by_cases hg : g' = sectionId
  · subst hg
    rw [createCheckPasses_activeCount db g' hchk]
    split
    · omega
    · omega
  · have hb : (S.sectionId == g') = false := by
      rw [hSsec]
      simp only [beq_eq_false_iff_ne, ne_eq]
      exact fun hc => hg hc.symm
    have hne : sessionQueryActive g' S = false := by
      simp [sessionQueryActive, hb]
    rw [hne]
    simpa using hInv g'

/- Claim theorems. -/

/-- Claim C1, counterexample to the concurrent part: createAttendanceSession
is a plain query (createCheckPasses) followed by a plain setDoc
(sessionInsert) with no transaction linking them, so two concurrent calls
for the same section can both pass the check against the same state and
then both write. Both calls below succeed atomically on the empty state,
and the state reached by the interleaving check-A, check-B, write-A,
write-B holds two active sessions for section G, violating the
at-most-one-active-session invariant. -/
theorem claim_C1_counterexample :
    createAttendanceSession dbEmpty "t1" "G" "m" "demo" 10 0 "a" "1111" =
      .ok (sessA, sessionInsert dbEmpty sessA) ∧
    createAttendanceSession dbEmpty "t2" "G" "m" "demo" 10 0 "b" "2222" =
      .ok (sessB, sessionInsert dbEmpty sessB) ∧
    activeCount (sessionInsert (sessionInsert dbEmpty sessA) sessB).sessions "G" = 2 ∧
    ¬ SessionInvariant (sessionInsert (sessionInsert dbEmpty sessA) sessB) := by
  refine ⟨by decide, by decide, by decide, ?_⟩
  intro h
  have h2 := h "G"
  revert h2
  decide

/-- Claim C1 (amended): a state satisfying the at-most-one-active-session
invariant keeps satisfying it after each core operation executed
atomically and sequentially: createAttendanceSession (whichever way it
returns), endAttendanceSession, getActiveSessionForSection (including its
lazy-expiry write), and markSessionAttendance (whichever way it returns).
Interleaved concurrent creates are not covered: the check and the write
of createAttendanceSession are separate, untransacted steps, and
claim_C1_counterexample shows an interleaving that breaks the invariant. -/
theorem claim_C1_sequential_invariant (db : DB) (hInv : SessionInvariant db)
    (teacherId sectionId subjectId mode : String) (durationMinutes now : Nat)
    (newId code sid roll g rid : String) :
    (∀ s db', createAttendanceSession db teacherId sectionId subjectId mode
        durationMinutes now newId code = .ok (s, db') → SessionInvariant db') ∧
    SessionInvariant (endAttendanceSession db sid now) ∧
    SessionInvariant (getActiveSessionForSection db g now).2 ∧
    (∀ b db', markSessionAttendance db sid roll now rid = .ok (b, db') →
      SessionInvariant db') := by
  refine ⟨?_, endAttendanceSession_invariant db hInv sid now, ?_, ?_⟩
  · intro s db' h
    cases hchk : createCheckPasses db sectionId with
    | false => simp [createAttendanceSession, hchk] at h
    | true =>
      simp [createAttendanceSession, hchk] at h
      obtain ⟨-, hdb⟩ := h
      subst hdb
      exact createSession_invariant_aux db hInv sectionId _ rfl hchk
  · cases hq : db.sessions.filter (sessionQueryActive g) with
    | nil =>
      simp only [getActiveSessionForSection, hq]
      exact hInv
    | cons s rest =>
      simp only [getActiveSessionForSection, hq]
      split
      · exact endAttendanceSession_invariant db hInv s.id now
      · exact hInv
  · intro b db' h
    cases hse : findSessionById db sid with
    | none => simp [markSessionAttendance, hse] at h
    | some session =>
      cases hA : session.isActive with
      | false => simp [markSessionAttendance, hse, hA] at h
      | true =>
        cases hstu : findStudentByRollNumber db roll with
        | none => simp [markSessionAttendance, hse, hA, hstu] at h
        | some student =>
          cases hex :
              (db.attendanceLogs.filter (attendanceWindowQuery session student.id)).isEmpty with
          | true =>
            simp [markSessionAttendance, hse, hA, hstu, hex] at h
            obtain ⟨-, hdb⟩ := h
            subst hdb
            exact hInv
          | false =>
            simp [markSessionAttendance, hse, hA, hstu, hex] at h
            obtain ⟨-, hdb⟩ := h
            subst hdb
            exact hInv

/-- Claim C1, witness: the amended preservation theorem applied at the
empty state, whose invariant proof is the first component. -/
theorem claim_C1_witness :
    SessionInvariant dbEmpty ∧ SessionInvariant (endAttendanceSession dbEmpty "s1" 5) := by
  have hInv : SessionInvariant dbEmpty := fun g => by
    show activeCount [] g ≤ 1
    rw [activeCount_nil]
    exact Nat.zero_le 1
  exact ⟨hInv, (claim_C1_sequential_invariant dbEmpty hInv "t1" "G" "m" "demo" 10 0
    "a" "1111" "s1" "r1" "G" "rec").2.1⟩

/-- Claim C2: a createAttendanceSession call fails with the session
conflict error exactly when the active-session query for the section is
non-empty at the time of the call (createCheckPasses false), and
otherwise succeeds, appending a session with isActive = true, startTime =
now and expiresAt = now + durationMinutes*60*1000. -/
theorem claim_C2_conflict_xor_create (db : DB)
    (teacherId sectionId subjectId mode : String) (durationMinutes now : Nat)
    (newId code : String) :
    (createCheckPasses db sectionId = false →
      createAttendanceSession db teacherId sectionId subjectId mode durationMinutes
        now newId code = .error .sessionConflict) ∧
    (createCheckPasses db sectionId = true →
      ∃ s : Session, s.isActive = true ∧ s.sectionId = sectionId ∧
        s.startTime = now ∧ s.expiresAt = now + durationMinutes * 60 * 1000 ∧
        createAttendanceSession db teacherId sectionId subjectId mode durationMinutes
          now newId code = .ok (s, sessionInsert db s)) := by
  constructor
  · intro h
    simp [createAttendanceSession, h]
  · intro h
    refine ⟨{ id := newId, teacherId := teacherId, sectionId := sectionId,
              subjectId := subjectId, isActive := true, mode := mode,
              startTime := now, endTime := now + durationMinutes * 60 * 1000,
              expiresAt := now + durationMinutes * 60 * 1000, code := code,
              createdAt := now }, rfl, rfl, rfl, rfl, ?_⟩
    simp [createAttendanceSession, h]

/-- Claim C2, witness: with an active session stored for section G the
call conflicts. -/
theorem claim_C2_witness :
    createCheckPasses dbMark "G" = false ∧
    createAttendanceSession dbMark "t9" "G" "m" "demo" 10 50 "n" "9999" =
      .error .sessionConflict := by
  refine ⟨by decide, ?_⟩
  exact (claim_C2_conflict_xor_create dbMark "t9" "G" "m" "demo" 10 50 "n" "9999").1
    (by decide)

/-- Claim C3, counterexample: against the live session for G (startTime
5) a first markSessionAttendance at now = 5 persists a record with
timestamp 5; because the duplicate query matches only records with
timestamp strictly greater than startTime, a second call at now = 6 does
not find it and persists a second record: two records for the same
(identity, session) pair. -/
theorem claim_C3_counterexample :
    sessionG.isActive = true ∧
    markSessionAttendance dbMark "s1" "r1" 5 "recA" = .ok (true, dbMarkAfter5) ∧
    markSessionAttendance dbMarkAfter5 "s1" "r1" 6 "recB" = .ok (true, dbMarkAfter56) ∧
    (dbMarkAfter56.attendanceLogs.filter (fun r => r.studentId == "stu")).length = 2 := by
  refine ⟨rfl, by decide, by decide, by decide⟩

/-- Claim C3 (amended): provided every call lands strictly after the
session's startTime, marking is create-once-then-no-op: with the session
loaded and active and the student resolved, when no record matches the
duplicate-check window the call appends exactly one record matching that
window, and when one matches the call returns true leaving the state
unchanged; hence any N ≥ 1 such sequential calls persist exactly one
record for the pair. -/
theorem claim_C3_mark_idempotent_after_start (db : DB) (sid roll : String)
    (now : Nat) (rid : String) (s : Session) (stu : Student)
    (hs : findSessionById db sid = some s)
    (hA : s.isActive = true)
    (hstu : findStudentByRollNumber db roll = some stu)
    (hnow : s.startTime < now) :
    (db.attendanceLogs.filter (attendanceWindowQuery s stu.id) = [] →
      ∃ rec : AttendanceRecord,
        markSessionAttendance db sid roll now rid =
          .ok (true, { db with attendanceLogs := db.attendanceLogs ++ [rec] }) ∧
        attendanceWindowQuery s stu.id rec = true ∧
        ((db.attendanceLogs ++ [rec]).filter (attendanceWindowQuery s stu.id)).length = 1) ∧
    (db.attendanceLogs.filter (attendanceWindowQuery s stu.id) ≠ [] →
      markSessionAttendance db sid roll now rid = .ok (true, db)) := by
  constructor
  · intro hempty
    refine ⟨{ id := rid, studentId := stu.id, subjectId := s.subjectId,
              teacherId := s.teacherId, sectionId := s.sectionId,
              timestamp := now, period := 0, topic := none, present := true,
              createdAt := now }, ?_, ?_, ?_⟩
    · simp [markSessionAttendance, hs, hA, hstu, hempty]
    · simp [attendanceWindowQuery, hnow]
    · rw [List.filter_append, hempty]
      simp [attendanceWindowQuery, hnow]
  · intro hne
    have hE : (db.attendanceLogs.filter (attendanceWindowQuery s stu.id)).isEmpty = false := by
      cases hc : (db.attendanceLogs.filter (attendanceWindowQuery s stu.id)).isEmpty
      · rfl
      · exact absurd (List.isEmpty_iff.mp hc) hne
    simp [markSessionAttendance, hs, hA, hstu, hE]

/-- Claim C3, witness: with one record already inside the window of the
live session, a further call at now = 7 is a no-op returning true. -/
theorem claim_C3_witness :
    findSessionById dbMarkIdem "s1" = some sessionG ∧
    sessionG.isActive = true ∧
    findStudentByRollNumber dbMarkIdem "r1" = some studentR1 ∧
    sessionG.startTime < 7 ∧
    dbMarkIdem.attendanceLogs.filter (attendanceWindowQuery sessionG studentR1.id) ≠ [] ∧
    markSessionAttendance dbMarkIdem "s1" "r1" 7 "recC" = .ok (true, dbMarkIdem) := by
  refine ⟨by decide, rfl, by decide, by decide, by decide, ?_⟩
  exact (claim_C3_mark_idempotent_after_start dbMarkIdem "s1" "r1" 7 "recC" sessionG
    studentR1 (by decide) rfl (by decide) (by decide)).2 (by decide)

/-- Claim C4, counterexample: the session for G expired at 10 but its
stored isActive flag is still true; markSessionAttendance called at now =
11 does not consult expiresAt, succeeds, and persists a record, where the
claim demands the inactive-session error. -/
theorem claim_C4_counterexample :
    sessionExpired.isActive = true ∧
    sessionExpired.expiresAt < 11 ∧
    markSessionAttendance dbExpired "s1" "r1" 11 "recC4" = .ok (true, dbExpiredAfter) ∧
    dbExpiredAfter.attendanceLogs.length = 1 := by
  exact ⟨rfl, by decide, by decide, rfl⟩

/-- Claim C4 (amended): markSessionAttendance checks only the stored
isActive flag, never expiresAt: for a loaded session, it fails with the
inactive-session error exactly when isActive is false, so an
expired-but-never-closed session keeps accepting marks until
endAttendanceSession or the lazy expiry of getActiveSessionForSection
flips the flag. -/
theorem claim_C4_inactive_flag_only (db : DB) (sid roll : String) (now : Nat)
    (rid : String) (s : Session) (hs : findSessionById db sid = some s) :
    (markSessionAttendance db sid roll now rid = .error .sessionInactive ↔
      s.isActive = false) := by
  cases hA : s.isActive with
  | true =>
    cases hstu : findStudentByRollNumber db roll with
    | none => simp [markSessionAttendance, hs, hA, hstu]
    | some student =>
      cases hex :
          (db.attendanceLogs.filter (attendanceWindowQuery s student.id)).isEmpty with
      | true => simp [markSessionAttendance, hs, hA, hstu, hex]
      | false => simp [markSessionAttendance, hs, hA, hstu, hex]
  | false => simp [markSessionAttendance, hs, hA]

/-- Claim C4, witness: marking against a session whose flag was already
flipped to false fails with the inactive-session error. -/
theorem claim_C4_witness :
    findSessionById dbEnded "s1" = some sessionEnded ∧
    (markSessionAttendance dbEnded "s1" "r1" 11 "recX" = .error .sessionInactive ↔
      sessionEnded.isActive = false) := by
  refine ⟨by decide, ?_⟩
  exact claim_C4_inactive_flag_only dbEnded "s1" "r1" 11 "recX" sessionEnded (by decide)

/-- Claim C6: when the stored session returned by the active-session
query for a section has expiresAt in the past, getActiveSessionForSection
returns null and durably ends that session (isActive := false, endTime :=
now) as a side effect, even though endAttendanceSession was never called
on it before; afterwards every stored session with that id has isActive =
false. -/
theorem claim_C6_lazy_expiry (db : DB) (g : String) (now : Nat) (s : Session)
    (hq : db.sessions.filter (sessionQueryActive g) = [s])
    (hexp : s.expiresAt < now) :
    getActiveSessionForSection db g now = (none, endAttendanceSession db s.id now) ∧
    ∀ t ∈ (endAttendanceSession db s.id now).sessions, t.id = s.id →
      t.isActive = false := by
  constructor
  · simp only [getActiveSessionForSection, hq]
    rw [if_pos hexp]
  · intro t ht hid
    simp only [endAttendanceSession] at ht
    obtain ⟨u, hu, rfl⟩ := List.mem_map.mp ht
    by_cases h : u.id = s.id
    · have hb : (u.id == s.id) = true := by simp [h]
      simp [endUpdate, hb]
    · have hb : (u.id == s.id) = false := by simp [h]
      simp only [endUpdate, hb, Bool.false_eq_true, if_false] at hid
      exact absurd hid h

/-- Claim C6, witness: the expired-but-still-flagged session for G is
ended and null is returned when the lookup happens at now = 11. -/
theorem claim_C6_witness :
    dbExpired.sessions.filter (sessionQueryActive "G") = [sessionExpired] ∧
    sessionExpired.expiresAt < 11 ∧
    getActiveSessionForSection dbExpired "G" 11 =
      (none, endAttendanceSession dbExpired sessionExpired.id 11) := by
  refine ⟨by decide, by decide, ?_⟩
  exact (claim_C6_lazy_expiry dbExpired "G" 11 sessionExpired (by decide) (by decide)).1

/-- Claim C7, counterexample: saveFaceDescriptors called with the empty
descriptor list does not fail with a validation error and does not leave
the store unchanged: it succeeds, wipes the student's stored descriptor
set, and leaves the registered flag true. -/
theorem claim_C7_counterexample :
    saveFaceDescriptors dbStudentOnly "stu" [] = .ok dbStudentWiped ∧
    dbStudentWiped ≠ dbStudentOnly ∧
    dbStudentWiped.students.map Student.faceDescriptors = [[]] ∧
    dbStudentWiped.students.map Student.faceRegistered = [true] := by
  exact ⟨by decide, by decide, by decide, by decide⟩

/-- Claim C7 (amended): saveFaceDescriptors performs no emptiness check:
called with the empty vector list on an existing student it succeeds and
mutates the store, overwriting the student's descriptor set with the
empty set, setting its stored count to 0 and its registered flag to true;
the other collections are untouched. -/
theorem claim_C7_empty_overwrite (db : DB) (studentId : String)
    (h : db.students.any (fun st => st.id == studentId) = true) :
    ∃ db', saveFaceDescriptors db studentId [] = .ok db' ∧
      db'.sessions = db.sessions ∧ db'.attendanceLogs = db.attendanceLogs ∧
      ∀ st ∈ db'.students, st.id = studentId →
        st.faceDescriptors = [] ∧ st.faceDescriptorCount = 0 ∧
          st.faceRegistered = true := by
  refine ⟨{ db with students := db.students.map (saveUpdate studentId []) },
    ?_, rfl, rfl, ?_⟩
  · simp [saveFaceDescriptors, h]
  · intro st hst hid
    simp only at hst
    obtain ⟨u, hu, rfl⟩ := List.mem_map.mp hst
    by_cases hc : u.id = studentId
    · have hb : (u.id == studentId) = true := by simp [hc]
      simp [saveUpdate, hb]
    · have hb : (u.id == studentId) = false := by simp [hc]
      simp only [saveUpdate, hb, Bool.false_eq_true, if_false] at hid
      exact absurd hid hc

/-- Claim C7, witness: the amended overwrite theorem applied to the store
holding one registered student. -/
theorem claim_C7_witness :
    dbStudentOnly.students.any (fun st => st.id == "stu") = true ∧
    (∃ db', saveFaceDescriptors dbStudentOnly "stu" [] = .ok db' ∧
      db'.sessions = dbStudentOnly.sessions ∧
      db'.attendanceLogs = dbStudentOnly.attendanceLogs ∧
      ∀ st ∈ db'.students, st.id = "stu" →
        st.faceDescriptors = [] ∧ st.faceDescriptorCount = 0 ∧
          st.faceRegistered = true) :=
  ⟨by decide, claim_C7_empty_overwrite dbStudentOnly "stu" (by decide)⟩

/-- Claim C9: addAttendanceToFirebase with a failing audit write returns
the same created record as with a succeeding one, the persisted
attendance log is identical in the two runs, and in the failing run the
record is still returned and appended; only the audit collection can
differ. -/
theorem claim_C9_audit_failure_swallowed (db : DB)
    (studentId subjectId teacherId sectionId : String) (timestampArg : Option Nat)
    (period : Nat) (topic : Option String) (present : Bool) (now : Nat)
    (newId auditId : String) :
    (addAttendanceToFirebase db studentId subjectId teacherId sectionId
        timestampArg period topic present now newId auditId false).1 =
      (addAttendanceToFirebase db studentId subjectId teacherId sectionId
        timestampArg period topic present now newId auditId true).1 ∧
    ((addAttendanceToFirebase db studentId subjectId teacherId sectionId
        timestampArg period topic present now newId auditId false).2).attendanceLogs =
      ((addAttendanceToFirebase db studentId subjectId teacherId sectionId
        timestampArg period topic present now newId auditId true).2).attendanceLogs ∧
    ((addAttendanceToFirebase db studentId subjectId teacherId sectionId
        timestampArg period topic present now newId auditId false).2).attendanceLogs =
      db.attendanceLogs ++
        [(addAttendanceToFirebase db studentId subjectId teacherId sectionId
          timestampArg period topic present now newId auditId false).1] :=
  ⟨rfl, rfl, rfl⟩

/-- Claim C5, counterexample: with one candidate whose descriptor sits at
Euclidean distance 3/5 from the probe, the maximum confidence is exactly
the threshold 2/5, yet the matcher returns unmatched (the comparison is
strict), and the entry it returns carries confidence 0 (bestD2 = none),
not the maximum confidence seen. -/
theorem claim_C5_counterexample :
    dist2 detZero.descriptor [3/5] = 9/25 ∧
    max 0 (1 - Real.sqrt (((9:ℚ)/25 : ℚ) : ℝ)) = 2/5 ∧
    (recognizeOne candsTau detZero).isRecognized = false ∧
    recognizeOne candsTau detZero = unknownEntry detZero := by
  have hd : dist2 detZero.descriptor [3/5] = 9/25 := by
    norm_num [dist2, detZero]
  have himp : improves ((9:ℚ)/25) none = false := by
    simp only [improves, Bool.and_true]
    exact decide_eq_false (lt_irrefl _)
  have hscan : scanCandidates detZero.descriptor candsTau none = none := by
    simp [candsTau, scanCandidates, scanDescriptors, hd, himp]
  refine ⟨hd, ?_, ?_, ?_⟩
  · have h1 : (((9:ℚ)/25 : ℚ) : ℝ) = 9/25 := by
      push_cast
      ring
    rw [h1, show (9:ℝ)/25 = (3/5) ^ 2 by norm_num,
      Real.sqrt_sq (by norm_num : (0:ℝ) ≤ 3/5)]
    norm_num
  · simp [recognizeOne, hscan, unknownEntry]
  · simp [recognizeOne, hscan]

/-- Claim C5 (amended): for a non-empty candidate set the matcher returns
unmatched if and only if every registered descriptor's confidence
max 0 (1 - Real.sqrt d2) is at most the threshold 2/5 (equivalently, the
maximum confidence is ≤ τ: confidence exactly equal to τ does not match,
because the code requires confidence strictly above 0.4), and in the
unmatched case the returned entry is the unknown entry, whose confidence
is 0 (bestD2 = none) rather than the maximum confidence seen. -/
theorem claim_C5_unmatched_iff_conf_le (cands : List (String × List (List ℚ)))
    (det : Detection) (hne : cands ≠ []) :
    recognizeFaces [det] cands = [recognizeOne cands det] ∧
    ((recognizeOne cands det).isRecognized = false ↔
      ∀ c ∈ cands, ∀ d ∈ c.2,
        max 0 (1 - Real.sqrt ((dist2 det.descriptor d : ℚ) : ℝ)) ≤ 2/5) ∧
    ((recognizeOne cands det).isRecognized = false →
      recognizeOne cands det = unknownEntry det) := by
  have hEmpty : cands.isEmpty = false := by
    cases cands with
    | nil => exact absurd rfl hne
    | cons c cs => rfl
  refine ⟨?_, ?_, ?_⟩
  · simp [recognizeFaces, hEmpty, entryFor]
  · have key : (recognizeOne cands det).isRecognized = false ↔
        scanCandidates det.descriptor cands none = none := by
      cases hsc : scanCandidates det.descriptor cands none with
      | none => simp [recognizeOne, hsc, unknownEntry]
      | some b => simp [recognizeOne, hsc]
    rw [key, scanCandidates_none_iff]
    refine forall_congr' fun c => forall_congr' fun hc =>
      forall_congr' fun d => forall_congr' fun hd => ?_
    rw [not_lt]
    have hcast : ((9:ℚ)/25 ≤ dist2 det.descriptor d) ↔
        ((9:ℝ)/25 ≤ ((dist2 det.descriptor d : ℚ) : ℝ)) := by
      rw [show ((9:ℝ)/25) = (((9:ℚ)/25 : ℚ) : ℝ) by push_cast; ring]
      exact Rat.cast_le.symm
    rw [hcast]
    exact (conf_le_threshold_iff _
      (by exact_mod_cast dist2_nonneg det.descriptor d)).symm
  · intro hF
    cases hsc : scanCandidates det.descriptor cands none with
    | none => simp [recognizeOne, hsc]
    | some b =>
      exfalso
      simp [recognizeOne, hsc] at hF

/-- Claim C5, witness: the amended theorem at a candidate set whose only
descriptor is far from the probe. -/
theorem claim_C5_witness :
    candsFar ≠ [] ∧
    ((recognizeOne candsFar detZero).isRecognized = false ↔
      ∀ c ∈ candsFar, ∀ d ∈ c.2,
        max 0 (1 - Real.sqrt ((dist2 detZero.descriptor d : ℚ) : ℝ)) ≤ 2/5) :=
  ⟨by simp [candsFar],
    (claim_C5_unmatched_iff_conf_le candsFar detZero (by simp [candsFar])).2.1⟩

/-- Claim C8, counterexample: called with a detection and an empty
candidate set, recognizeFaces does not fail with a no-candidates error:
it returns a normal result, one unknown entry for the detected face. -/
theorem claim_C8_counterexample :
    recognizeFaces [detZero] [] = [unknownEntry detZero] ∧
    (unknownEntry detZero).studentId = "unknown" ∧
    (unknownEntry detZero).bestD2 = none ∧
    (unknownEntry detZero).isRecognized = false :=
  ⟨rfl, rfl, rfl, rfl⟩

/-- Claim C8 (amended): with an empty candidate set (the state after the
auto-reload attempt still found no registered students) recognizeFaces
raises no error at all: it returns one unknown entry (studentId
"unknown", confidence 0, isRecognized false) per detected face. -/
theorem claim_C8_empty_candidates_returns (dets : List Detection) :
    recognizeFaces dets [] = dets.map unknownEntry := by
  cases dets with
  | nil => rfl
  | cons d rest => rfl

/-- Claim C10: recognizeFaces returns exactly one entry per detected
face, in order (it is the map of the per-detection body over the
detections), and a face all of whose candidate confidences are at most
the threshold still gets an entry: the unknown one, with studentId
"unknown", confidence 0 (bestD2 = none) and isRecognized = false. The
embedded function is total: the TypeScript catch-all converts any
internal failure into the empty list instead of an exception. -/
theorem claim_C10_one_entry_per_face (dets : List Detection)
    (cands : List (String × List (List ℚ))) :
    recognizeFaces dets cands = dets.map (entryFor cands) ∧
    (recognizeFaces dets cands).length = dets.length ∧
    (∀ det ∈ dets, allBelowThreshold det.descriptor cands →
      entryFor cands det = unknownEntry det) := by
  refine ⟨recognizeFaces_eq_map dets cands, ?_, ?_⟩
  · rw [recognizeFaces_eq_map]
    exact List.length_map _ _
  · intro det hdet hbelow
    cases hE : cands.isEmpty with
    | true => simp [entryFor, hE]
    | false =>
      have hnone : scanCandidates det.descriptor cands none = none := by
        rw [scanCandidates_none_iff]
        intro c hc d hd
        rw [not_lt]
        exact hbelow c hc d hd
      simp [entryFor, hE, recognizeOne, hnone]

/-- Claim C10, witness: one detected face against a far-away candidate
set yields the unknown entry. -/
theorem claim_C10_witness :
    detZero ∈ [detZero] ∧ allBelowThreshold detZero.descriptor candsFar ∧
    entryFor candsFar detZero = unknownEntry detZero := by
  have hab : allBelowThreshold detZero.descriptor candsFar := by
    intro c hc d hd
    simp only [candsFar, List.mem_singleton] at hc
    subst hc
    simp only [List.mem_singleton] at hd
    subst hd
    norm_num [dist2, detZero]
  exact ⟨by simp, hab,
    (claim_C10_one_entry_per_face [detZero] candsFar).2.2 detZero (by simp) hab⟩

end SmartAttendance
